import Mathlib

/-!
Shallow embedding of the combat-simulation core of `src/fps-game/src/main.js`
(a Three.js first-person-shooter demo), together with theorems checking the
natural-language specification against it.

Modelling conventions:
* JavaScript numbers are embedded as `ℚ` (all arithmetic the claims touch is
  exact: additions, subtractions, multiplications, divisions, comparisons,
  `Math.min` / `Math.max` / `Math.floor`).  Ammo counts are `ℤ`.
* `Math.random()` results and `performance.now()` timestamps are passed in as
  explicit parameters (the source reads them from the ambient environment).
* The Three.js ray-intersection service, camera quaternion and DOM are
  external collaborators; they appear as oracle parameters.  Vector
  renormalisation (`Vector3.normalize`) is direction-preserving and real
  valued, so spread claims are stated about the perturbed vector before
  normalisation.
* `setTimeout` bodies (reload completion, respawn, enemy replacement) are
  embedded as separate completion functions; the schedule itself is a count
  of pending callbacks.
-/

namespace FpsGame

/-- `clamp(value, min, max)` from main.js line 51:
`Math.max(min, Math.min(max, value))`. -/
def clamp (value lo hi : ℚ) : ℚ := max lo (min hi value)

/-- `randFloat(min, max)` from main.js line 52, with the `Math.random()`
result `r ∈ [0,1)` passed explicitly: `r * (max - min) + min`. -/
def randFloat (lo hi r : ℚ) : ℚ := r * (hi - lo) + lo

/-- `randInt(min, max)` from main.js line 53: `Math.floor(randFloat(min, max, r))`. -/
def randInt (lo hi r : ℚ) : ℤ := ⌊randFloat lo hi r⌋

/-- A weapon archetype, one entry of `WEAPON_DEFS` (main.js lines 115-122).
`pellets` is `none` for entries that omit the field (JS `undefined`). -/
structure WeaponDef where
  key : String
  name : String
  damage : ℚ
  rpm : ℚ
  mag : ℤ
  reserve : ℤ
  reload : ℚ
  spread : ℚ
  range : ℚ
  pellets : Option ℕ := none
  auto : Bool
deriving DecidableEq, Repr

def pistolDef : WeaponDef :=
  { key := "pistol"
    name := "Pistol"
    damage := 22
    rpm := 420
    mag := 15
    reserve := 90
    reload := 12/10
    spread := 6/1000
    range := 1000
    auto := false }

def smgDef : WeaponDef :=
  { key := "smg"
    name := "SMG"
    damage := 16
    rpm := 900
    mag := 32
    reserve := 192
    reload := 16/10
    spread := 10/1000
    range := 850
    auto := true }

def arDef : WeaponDef :=
  { key := "ar"
    name := "Assault Rifle"
    damage := 28
    rpm := 700
    mag := 30
    reserve := 180
    reload := 18/10
    spread := 8/1000
    range := 1100
    auto := true }

def shotgunDef : WeaponDef :=
  { key := "shotgun"
    name := "Shotgun"
    damage := 12
    rpm := 85
    mag := 8
    reserve := 48
    reload := 22/10
    spread := 35/1000
    range := 250
    pellets := some 8
    auto := false }

def sniperDef : WeaponDef :=
  { key := "sniper"
    name := "Sniper"
    damage := 95
    rpm := 55
    mag := 5
    reserve := 25
    reload := 28/10
    spread := 1/1000
    range := 2200
    auto := false }

def lmgDef : WeaponDef :=
  { key := "lmg"
    name := "LMG"
    damage := 24
    rpm := 720
    mag := 60
    reserve := 360
    reload := 3
    spread := 12/1000
    range := 1200
    auto := true }

/-- `WEAPON_DEFS` (main.js lines 115-122). -/
def WEAPON_DEFS : List WeaponDef :=
  [pistolDef, smgDef, arDef, shotgunDef, sniperDef, lmgDef]

/-- One element of the `weaponState` array (main.js lines 125-131). -/
structure WeaponState where
  ammo : ℤ
  reserve : ℤ
  lastShotTime : ℚ
  reloading : Bool
  skinIndex : ℕ
deriving DecidableEq, Repr

/-- The state `weaponState` is initialised to for a definition `d`
(main.js lines 125-131); the skin index is the `randInt` result. -/
def initialWeaponState (d : WeaponDef) (skin : ℕ) : WeaponState :=
  { ammo := d.mag
    reserve := d.reserve
    lastShotTime := 0
    reloading := false
    skinIndex := skin }

/-- The synchronous part of `tryReload` (main.js lines 205-211): return the
state unchanged if already reloading, or if `st.ammo >= def.mag`, or if
`st.reserve <= 0`; otherwise set the reloading flag.  The `setTimeout` body
is `reloadComplete` below. -/
def tryReloadStart (d : WeaponDef) (st : WeaponState) : WeaponState :=
  if st.reloading then st
  else if st.ammo ≥ d.mag ∨ st.reserve ≤ 0 then st
  else { st with reloading := true }

/-- The `setTimeout` body of `tryReload` (main.js lines 212-220), run
`def.reload * 1000` milliseconds after the start:
`needed = def.mag - st.ammo; take = min(needed, st.reserve)`;
move `take` rounds from reserve to magazine and clear the flag. -/
def reloadComplete (d : WeaponDef) (st : WeaponState) : WeaponState :=
  let needed := d.mag - st.ammo
  let take := min needed st.reserve
  { st with
    ammo := st.ammo + take
    reserve := st.reserve - take
    reloading := false }

/-- `canShoot` (main.js lines 223-231), with `performance.now()` passed as
`now`.  Returns the boolean result together with the weapon state, because
the empty-magazine branch calls `tryReload()` as a side effect. -/
def canShootCheck (d : WeaponDef) (st : WeaponState) (now : ℚ) :
    Bool × WeaponState :=
  if st.reloading then (false, st)
  else if st.ammo ≤ 0 then (false, tryReloadStart d st)
  else
    let msPerShot := 60000 / d.rpm
    (decide (now - st.lastShotTime ≥ msPerShot), st)

/-- `def.pellets || 8` (main.js line 241): JS `||` treats `undefined` and `0`
as falsy. -/
def pelletsOrDefault (d : WeaponDef) : ℕ :=
  match d.pellets with
  | none => 8
  | some p => if p = 0 then 8 else p

/-- Outcome of one `performRaycastShot` call (main.js lines 263-290), with
the ray-intersection service as an oracle: `enemyHit` is the enemy found by
the enemy-pool query (after the `meshToEnemy` lookup), `none` on a miss.
`enemyQueried` / `worldQueried` record which pools the call queried. -/
structure PelletResult where
  enemyQueried : Bool
  worldQueried : Bool
  hitEnemy : Option ℕ
deriving DecidableEq, Repr

/-- Control flow of `performRaycastShot` (main.js lines 263-290): always
query the enemy pool; on an enemy hit apply damage and return (no world
query); otherwise query the world-collider pool for an impact effect. -/
def resolvePellet (enemyOracle : Option ℕ) : PelletResult :=
  match enemyOracle with
  | some e => { enemyQueried := true, worldQueried := false, hitEnemy := some e }
  | none => { enemyQueried := true, worldQueried := true, hitEnemy := none }

/-- `shoot` (main.js lines 233-248): bail out unless `canShoot()`; set
`lastShotTime = now`; run `performRaycastShot` once, or `def.pellets || 8`
times when `def.key === 'shotgun'`; then `st.ammo -= 1`.  The enemy-pool
oracle for pellet `i` is `oracle i`.  Returns the new state and the list of
pellet resolutions (empty when the shot was refused). -/
def shoot (d : WeaponDef) (st : WeaponState) (now : ℚ)
    (oracle : ℕ → Option ℕ) : WeaponState × List PelletResult :=
  let ok := (canShootCheck d st now).1
  let st1 := (canShootCheck d st now).2
  if ok then
    let n := if d.key = "shotgun" then pelletsOrDefault d else 1
    let results := (List.range n).map (fun i => resolvePellet (oracle i))
    ({ st1 with lastShotTime := now, ammo := st1.ammo - 1 }, results)
  else (st1, [])

/-- `WORLD_SIZE` (main.js line 9). -/
def WORLD_SIZE : ℚ := 3200

/-- `GRAVITY` (main.js line 12). -/
def GRAVITY : ℚ := 64

/-- `PLAYER_SPEED` (main.js line 13). -/
def PLAYER_SPEED : ℚ := 180

/-- `PLAYER_SPRINT_MULTIPLIER` (main.js line 14). -/
def PLAYER_SPRINT_MULTIPLIER : ℚ := 17/10

/-- `PLAYER_JUMP_VELOCITY` (main.js line 15). -/
def PLAYER_JUMP_VELOCITY : ℚ := 260

/-- `PLAYER_MAX_HEALTH` (main.js line 16). -/
def PLAYER_MAX_HEALTH : ℚ := 100

/-- The `player` record (main.js lines 22-27) together with the camera
position, which the source stores on `controls.getObject()` / `camera` and
uses as the player's position. -/
structure Player where
  posX : ℚ
  posY : ℚ
  posZ : ℚ
  velX : ℚ
  velY : ℚ
  velZ : ℚ
  onGround : Bool
  health : ℚ
  lastDamageTime : ℚ
deriving DecidableEq, Repr

/-- `applyDamageToPlayer` (main.js lines 426-437), with `performance.now()`
passed as `now`.  In the invulnerability window the function returns before
touching any field; otherwise it stamps `lastDamageTime`, subtracts the
damage, and floors health at 0.  (The death branch additionally emits a
status message and schedules `respawnPlayer` after 2000 ms; the schedule is
not part of the player record.) -/
def applyDamageToPlayer (p : Player) (dmg : ℚ) (now : ℚ) : Player :=
  if now - p.lastDamageTime < 200 then p
  else
    let p1 := { p with lastDamageTime := now, health := p.health - dmg }
    if p1.health ≤ 0 then { p1 with health := 0 } else p1

/-- A sequence of `applyDamageToPlayer` calls, each a (damage, now) pair. -/
def runDamage (p : Player) (calls : List (ℚ × ℚ)) : Player :=
  calls.foldl (fun q c => applyDamageToPlayer q c.1 c.2) p

/-- One enemy record (main.js lines 332-341).  `id` stands for the JS object
identity of the enemy (and of its hit mesh: each enemy owns exactly one hit
mesh).  The health-bar children are presentation and are not modelled. -/
structure Enemy where
  id : ℕ
  posX : ℚ
  posZ : ℚ
  health : ℚ
  state : String
  nextWanderTime : ℚ
  wanderDirX : ℚ
  wanderDirZ : ℚ
  lastShotTime : ℚ
deriving DecidableEq, Repr

/-- The `enemyManager` registry (main.js lines 310-314): the enemy list, the
raycastable mesh pool (mesh ids), and the mesh-to-enemy map (as an
association list of (mesh id, enemy id)).  `pendingSpawns` counts scheduled
`createEnemy` callbacks; `nextId` supplies fresh identities. -/
structure EnemyManager where
  enemies : List Enemy
  hitMeshes : List ℕ
  meshToEnemy : List (ℕ × ℕ)
  pendingSpawns : ℕ
  nextId : ℕ
deriving DecidableEq, Repr

/-- `createEnemy` (main.js lines 316-348): build a fresh enemy (health 100,
patrol state, wander direction (1,0,0)), place it at a random position via
`setEnemyRandomPosition` (main.js lines 350-352) using random draws `r1`,
`r2`, and push it into all three pools. -/
def createEnemy (mgr : EnemyManager) (r1 r2 : ℚ) : EnemyManager :=
  let e : Enemy :=
    { id := mgr.nextId
      posX := randFloat (-(WORLD_SIZE/2)) (WORLD_SIZE/2) r1
      posZ := randFloat (-(WORLD_SIZE/2)) (WORLD_SIZE/2) r2
      health := 100
      state := "patrol"
      nextWanderTime := 0
      wanderDirX := 1
      wanderDirZ := 0
      lastShotTime := 0 }
  { mgr with
    enemies := mgr.enemies ++ [e]
    hitMeshes := mgr.hitMeshes ++ [e.id]
    meshToEnemy := mgr.meshToEnemy ++ [(e.id, e.id)]
    nextId := mgr.nextId + 1 }

/-- `applyDamageToEnemy` (main.js lines 354-368) on the enemy with identity
`eid`: subtract the damage; if the result is `<= 0`, remove the enemy from
the scene and from `meshToEnemy`, `hitMeshes` and `enemies`, and schedule a
`createEnemy` call after 2000 ms (`pendingSpawns + 1`).  The health-bar
scale/colour updates are presentation only. -/
def applyDamageToEnemy (mgr : EnemyManager) (eid : ℕ) (dmg : ℚ) :
    EnemyManager :=
  match mgr.enemies.find? (fun e => e.id == eid) with
  | none => mgr
  | some e =>
    let health1 := e.health - dmg
    if health1 ≤ 0 then
      { mgr with
        enemies := mgr.enemies.filter (fun x => x.id != eid)
        hitMeshes := mgr.hitMeshes.filter (fun m => m != eid)
        meshToEnemy := mgr.meshToEnemy.filter (fun pr => pr.1 != eid)
        pendingSpawns := mgr.pendingSpawns + 1 }
    else
      { mgr with
        enemies := mgr.enemies.map
          (fun x => if x.id == eid then { x with health := health1 } else x) }

/-- A raycast against the enemy hit-mesh pool
(`raycaster.intersectObjects(enemyManager.hitMeshes, true)`, main.js line
277): whatever intersection geometry selects, the struck mesh is an element
of `hitMeshes`; `pick` abstracts that selection as an index. -/
def hitQuery (mgr : EnemyManager) (pick : ℕ) : Option ℕ :=
  mgr.hitMeshes[pick]?

/-- `enemyManager.meshToEnemy.get(hit.object)` (main.js line 280). -/
def meshLookup (mgr : EnemyManager) (m : ℕ) : Option ℕ :=
  (mgr.meshToEnemy.find? (fun pr => pr.1 == m)).map (fun pr => pr.2)

/-- A 3-vector of exact coordinates. -/
structure Vec3 where
  x : ℚ
  y : ℚ
  z : ℚ
deriving DecidableEq, Repr

/-- The spread perturbation of `performRaycastShot` (main.js lines 268-271),
applied to the world-space aim direction `dir` (the camera quaternion having
been applied already at line 266) with the three `Math.random()` draws `r1`,
`r2`, `r3 ∈ [0,1)`:
`x += (r1 - 0.5) * spread; y += (r2 - 0.5) * spread;`
`z += (r3 - 0.5) * spread * 0.2`.
The subsequent `normalize()` (line 272) rescales the vector without changing
its direction, so claims about the offsets are stated on this vector. -/
def spreadPerturb (d : WeaponDef) (dir : Vec3) (r1 r2 r3 : ℚ) : Vec3 :=
  { x := dir.x + (r1 - 1/2) * d.spread
    y := dir.y + (r2 - 1/2) * d.spread
    z := dir.z + (r3 - 1/2) * d.spread * (2/10) }

/-- The hit chance of `attemptEnemyShot` (main.js line 415):
`clamp(0.6 - dist / 2000, 0.05, 0.35)`. -/
def hitChance (dist : ℚ) : ℚ := clamp (6/10 - dist / 2000) (1/20) (7/20)

/-- `attemptEnemyShot` (main.js lines 412-424) with the distance to the
player and the two `Math.random()` draws passed in: on `roll < hitChance`,
the damage `randInt(6, 14)` is applied to the player (returned as `some`);
on a miss only a cosmetic near-miss impact is spawned (`none`). -/
def attemptEnemyShot (dist roll rdmg : ℚ) : Option ℤ :=
  if roll < hitChance dist then some (randInt 6 14 rdmg) else none

/-- The boolean `input` intents (main.js lines 28-36). -/
structure InputState where
  forward : Bool
  backward : Bool
  left : Bool
  right : Bool
  jump : Bool
  sprint : Bool
  shooting : Bool
deriving DecidableEq, Repr

/-- `updateMovement(delta)` (main.js lines 579-627).  The camera yaw enters
through `cy = cos(yaw)` and `sy = sin(yaw)`, and `invLen` is the
`keyDir.normalize()` scale factor `1 / |keyDir|` (both real-valued camera /
vector-library outputs, passed in exactly).  `keyDir.y` is always 0 in the
source, so the target velocity's y component is 0. -/
def updateMovement (p : Player) (inp : InputState) (cy sy invLen delta : ℚ) :
    Player :=
  let kx0 : ℚ := (if inp.left then -1 else 0) + (if inp.right then 1 else 0)
  let kz0 : ℚ := (if inp.forward then -1 else 0) + (if inp.backward then 1 else 0)
  let kx := if kx0 ^ 2 + kz0 ^ 2 > 0 then (kx0 * invLen) * cy - (kz0 * invLen) * sy else kx0
  let kz := if kx0 ^ 2 + kz0 ^ 2 > 0 then (kx0 * invLen) * sy + (kz0 * invLen) * cy else kz0
  let speed := PLAYER_SPEED * (if inp.sprint then PLAYER_SPRINT_MULTIPLIER else 1)
  let accelStep := clamp (600 * delta) 0 1
  let vx := p.velX + (kx * speed - p.velX) * accelStep
  let vy0 := p.velY + (0 - p.velY) * accelStep
  let vz := p.velZ + (kz * speed - p.velZ) * accelStep
  let vy1 := if !p.onGround then vy0 - GRAVITY * delta else vy0
  let vy2 := if p.onGround && inp.jump then PLAYER_JUMP_VELOCITY else vy1
  let onG2 := if p.onGround && inp.jump then false else p.onGround
  let px := p.posX + vx * delta
  let py := p.posY + vy2 * delta
  let pz := p.posZ + vz * delta
  let groundY : ℚ := 24
  let py2 := if py ≤ groundY then groundY else py
  let vy3 := if py ≤ groundY then 0 else vy2
  let onG3 := if py ≤ groundY then true else onG2
  { p with
    posX := clamp px (-(WORLD_SIZE/2) + 10) (WORLD_SIZE/2 - 10)
    posY := py2
    posZ := clamp pz (-(WORLD_SIZE/2) + 10) (WORLD_SIZE/2 - 10)
    velX := vx
    velY := vy3
    velZ := vz
    onGround := onG3 }

/-- The whole-simulation state the respawn claims range over: the player,
the per-weapon runtime states, the equipped-weapon index, the enemy
registry, and the HUD status message. -/
structure GameState where
  player : Player
  weapons : List WeaponState
  currentWeaponIndex : ℕ
  enemyMgr : EnemyManager
  statusText : String
deriving DecidableEq, Repr

/-- `respawnPlayer` (main.js lines 439-445): reset the camera position to
(0, 24, 0), zero the velocity, restore `player.health` to
`PLAYER_MAX_HEALTH`, and clear the status message.  No other field is
touched. -/
def respawnPlayer (gs : GameState) : GameState :=
  { gs with
    player := { gs.player with
      posX := 0
      posY := 24
      posZ := 0
      velX := 0
      velY := 0
      velZ := 0
      health := PLAYER_MAX_HEALTH }
    statusText := "" }

/-- A concrete weapon runtime state used to exercise the theorems. -/
def sampleState : WeaponState :=
  { ammo := 10
    reserve := 90
    lastShotTime := 0
    reloading := false
    skinIndex := 0 }

/-- An enemy-pool oracle that always misses. -/
def noEnemyOracle : ℕ → Option ℕ := fun _ => none

/-- An enemy-pool oracle that always reports a hit on enemy 0. -/
def hitEnemyOracle : ℕ → Option ℕ := fun _ => some 0

/-- A concrete player state used to exercise the theorems. -/
def samplePlayer : Player :=
  { posX := 0
    posY := 24
    posZ := 0
    velX := 0
    velY := 0
    velZ := 0
    onGround := true
    health := 100
    lastDamageTime := 0 }

/-- A concrete airborne player state used to exercise the theorems. -/
def airbornePlayer : Player :=
  { posX := 0
    posY := 100
    posZ := 0
    velX := 0
    velY := 260
    velZ := 0
    onGround := false
    health := 100
    lastDamageTime := 0 }

/-- An input snapshot with no keys held. -/
def idleInput : InputState :=
  { forward := false
    backward := false
    left := false
    right := false
    jump := false
    sprint := false
    shooting := false }

/-- An input snapshot with only the jump key held. -/
def jumpInput : InputState :=
  { idleInput with jump := true }

/-- A concrete two-enemy registry used to exercise the theorems. -/
def sampleEnemy : Enemy :=
  { id := 0
    posX := 100
    posZ := 100
    health := 20
    state := "patrol"
    nextWanderTime := 0
    wanderDirX := 1
    wanderDirZ := 0
    lastShotTime := 0 }

def sampleEnemy1 : Enemy :=
  { sampleEnemy with id := 1, posX := -200, health := 100 }

def sampleMgr : EnemyManager :=
  { enemies := [sampleEnemy, sampleEnemy1]
    hitMeshes := [0, 1]
    meshToEnemy := [(0, 0), (1, 1)]
    pendingSpawns := 0
    nextId := 2 }

/-- A concrete game state used to exercise the respawn theorems. -/
def sampleGame : GameState :=
  { player := { samplePlayer with health := 0, lastDamageTime := 5000 }
    weapons := [sampleState]
    currentWeaponIndex := 0
    enemyMgr := sampleMgr
    statusText := "You are down. Respawning..." }

/-! ## Shared helper lemmas -/

/-- `tryReload` never changes the magazine count when it starts a reload. -/
theorem tryReloadStart_ammo (d : WeaponDef) (st : WeaponState) :
    (tryReloadStart d st).ammo = st.ammo := by
  unfold tryReloadStart
  split
  · rfl
  · split <;> rfl

/-- `tryReload` never changes the reserve count when it starts a reload. -/
theorem tryReloadStart_reserve (d : WeaponDef) (st : WeaponState) :
    (tryReloadStart d st).reserve = st.reserve := by
  unfold tryReloadStart
  split
  · rfl
  · split <;> rfl

/-! ## C1: fire-permission check and rate-of-fire gate -/

/-- C1: `canShoot` returns false while reloading; returns false and runs the
implicit `tryReload` attempt when the magazine is at 0; and otherwise
returns true exactly when `now - lastShotTime >= 60000 / rpm` milliseconds.
Consequently two `shoot` calls on the same weapon less than `60000 / rpm`
milliseconds apart decrement the magazine by exactly 1, not 2. -/
theorem canShoot_fire_gate (d : WeaponDef) (st : WeaponState) (now t1 t2 : ℚ)
    (o1 o2 : ℕ → Option ℕ) :
    (st.reloading = true → (canShootCheck d st now).1 = false)
    ∧ (st.ammo = 0 →
        (canShootCheck d st now).1 = false
        ∧ (canShootCheck d st now).2 = tryReloadStart d st)
    ∧ (st.reloading = false → 0 < st.ammo →
        ((canShootCheck d st now).1 = true ↔
          60000 / d.rpm ≤ now - st.lastShotTime))
    ∧ (st.reloading = false → 0 < st.ammo →
        60000 / d.rpm ≤ t1 - st.lastShotTime →
        t2 - t1 < 60000 / d.rpm →
        ((shoot d (shoot d st t1 o1).1 t2 o2).1).ammo = st.ammo - 1) := by
  refine ⟨?_, ?_, ?_, ?_⟩
  · intro h
    simp [canShootCheck, h]
  · intro h
    cases hr : st.reloading
    · simp [canShootCheck, hr, h]
    · simp [canShootCheck, tryReloadStart, hr, h]
  · intro hr ha
    have hna : ¬ st.ammo ≤ 0 := by omega
    simp [canShootCheck, hr, hna, ge_iff_le]
  · intro hr ha hg hlt
    have hna : ¬ st.ammo ≤ 0 := by omega
    have hok : (canShootCheck d st t1).1 = true := by
      simp [canShootCheck, hr, hna, ge_iff_le, hg]
    have hst1 : (canShootCheck d st t1).2 = st := by
      simp [canShootCheck, hr, hna]
    have hshoot1 :
        (shoot d st t1 o1).1 =
          { st with lastShotTime := t1, ammo := st.ammo - 1 } := by
      simp [shoot, hok, hst1]
    rw [hshoot1]
    by_cases hz : st.ammo - 1 ≤ 0
    · have hcc :
          canShootCheck d { st with lastShotTime := t1, ammo := st.ammo - 1 } t2
            = (false, tryReloadStart d
                { st with lastShotTime := t1, ammo := st.ammo - 1 }) := by
        simp [canShootCheck, hr, hz]
      simp [shoot, hcc, tryReloadStart_ammo]
    · have hgate : ¬ (t2 - t1 ≥ 60000 / d.rpm) := by
        intro hcon
        exact absurd hcon (not_le.mpr hlt)
      have hcc :
          canShootCheck d { st with lastShotTime := t1, ammo := st.ammo - 1 } t2
            = (false, { st with lastShotTime := t1, ammo := st.ammo - 1 }) := by
        simp [canShootCheck, hr, hz, hgate]
      simp [shoot, hcc]

/-- C1 witness: the pistol (420 rpm, 1000/7 ms per shot) fired at t=1000 and
again at t=1050 loses exactly one round; plus the reloading, empty-magazine
and gate clauses at concrete inputs. -/
theorem canShoot_fire_gate_witness :
    ((canShootCheck pistolDef { sampleState with reloading := true } 0).1 = false)
    ∧ ((canShootCheck pistolDef { sampleState with ammo := 0 } 0).1 = false)
    ∧ ((canShootCheck pistolDef sampleState 1000).1 = true ↔
        60000 / pistolDef.rpm ≤ (1000 : ℚ) - sampleState.lastShotTime)
    ∧ ((shoot pistolDef (shoot pistolDef sampleState 1000 noEnemyOracle).1 1050
          noEnemyOracle).1).ammo = sampleState.ammo - 1 := by
  refine ⟨?_, ?_, ?_, ?_⟩
  · exact (canShoot_fire_gate pistolDef { sampleState with reloading := true }
      0 0 0 noEnemyOracle noEnemyOracle).1 rfl
  · exact ((canShoot_fire_gate pistolDef { sampleState with ammo := 0 }
      0 0 0 noEnemyOracle noEnemyOracle).2.1 rfl).1
  · exact (canShoot_fire_gate pistolDef sampleState 1000 0 0 noEnemyOracle
      noEnemyOracle).2.2.1 rfl (by norm_num [sampleState])
  · exact (canShoot_fire_gate pistolDef sampleState 0 1000 1050 noEnemyOracle
      noEnemyOracle).2.2.2 rfl (by norm_num [sampleState])
      (by norm_num [sampleState, pistolDef]) (by norm_num [pistolDef])

/-! ## C2: reload state machine -/

/-- C2: `tryReload` is a no-op (every field unchanged) when already
reloading, when the magazine is full, or when the reserve is empty;
otherwise it sets the reloading flag (changing nothing else), and its
completion callback transfers exactly `min(mag - ammo, reserve)` rounds from
reserve to magazine and clears the flag.  (The callback runs
`def.reload * 1000` milliseconds later; the delay itself is opaque to the
state.) -/
theorem tryReload_spec (d : WeaponDef) (st : WeaponState) :
    (st.reloading = true → tryReloadStart d st = st)
    ∧ (st.ammo = d.mag → tryReloadStart d st = st)
    ∧ (st.reserve = 0 → tryReloadStart d st = st)
    ∧ (st.reloading = false → st.ammo < d.mag → 0 < st.reserve →
        (tryReloadStart d st).reloading = true
        ∧ (tryReloadStart d st).ammo = st.ammo
        ∧ (tryReloadStart d st).reserve = st.reserve
        ∧ (reloadComplete d (tryReloadStart d st)).ammo
            = st.ammo + min (d.mag - st.ammo) st.reserve
        ∧ (reloadComplete d (tryReloadStart d st)).reserve
            = st.reserve - min (d.mag - st.ammo) st.reserve
        ∧ (reloadComplete d (tryReloadStart d st)).reloading = false) := by
  refine ⟨?_, ?_, ?_, ?_⟩
  · intro h
    simp [tryReloadStart, h]
  · intro h
    cases hr : st.reloading
    · have : st.ammo ≥ d.mag ∨ st.reserve ≤ 0 := Or.inl (le_of_eq h.symm)
      simp [tryReloadStart, hr, this]
    · simp [tryReloadStart, hr]
  · intro h
    cases hr : st.reloading
    · have : st.ammo ≥ d.mag ∨ st.reserve ≤ 0 := Or.inr (le_of_eq h)
      simp [tryReloadStart, hr, this]
    · simp [tryReloadStart, hr]
  · intro hr hlt hres
    have hcond : ¬ (st.ammo ≥ d.mag ∨ st.reserve ≤ 0) := by
      push_neg
      exact ⟨hlt, hres⟩
    have hstart : tryReloadStart d st = { st with reloading := true } := by
      simp [tryReloadStart, hr, hcond]
    rw [hstart]
    refine ⟨rfl, rfl, rfl, ?_, ?_, rfl⟩
    · simp [reloadComplete]
    · simp [reloadComplete]

/-- C2 witness: the assault rifle with 5 rounds left and 180 in reserve
starts a reload, and completion moves `min(30 - 5, 180) = 25` rounds; the
no-op clauses at concrete inputs. -/
theorem tryReload_spec_witness :
    (tryReloadStart arDef { sampleState with reloading := true }
        = { sampleState with reloading := true })
    ∧ (tryReloadStart arDef { sampleState with ammo := 30 }
        = { sampleState with ammo := 30 })
    ∧ (tryReloadStart arDef { sampleState with reserve := 0 }
        = { sampleState with reserve := 0 })
    ∧ (reloadComplete arDef
        (tryReloadStart arDef { sampleState with ammo := 5, reserve := 180 })).ammo
        = 5 + min (arDef.mag - 5) 180 := by
  refine ⟨?_, ?_, ?_, ?_⟩
  · exact (tryReload_spec arDef { sampleState with reloading := true }).1 rfl
  · exact (tryReload_spec arDef { sampleState with ammo := 30 }).2.1 rfl
  · exact (tryReload_spec arDef { sampleState with reserve := 0 }).2.2.1 rfl
  · exact ((tryReload_spec arDef { sampleState with ammo := 5, reserve := 180 }
      ).2.2.2 rfl (by norm_num [arDef]) (by norm_num)).2.2.2.1

/-! ## C3: player damage, invulnerability window, health floor -/

/-- A single `applyDamageToPlayer` call keeps health nonnegative. -/
theorem applyDamageToPlayer_health_nonneg (p : Player) (dmg now : ℚ)
    (h : 0 ≤ p.health) : 0 ≤ (applyDamageToPlayer p dmg now).health := by
  unfold applyDamageToPlayer
  dsimp only
  split_ifs with h1 h2
  · exact h
  · simp
  · show 0 ≤ p.health - dmg
    by_contra hc
    push_neg at hc
    exact h2 (by linarith)

/-- C3: `applyDamageToPlayer` is a complete no-op inside the 200 ms
invulnerability window; otherwise it stamps `lastDamageTime = now` and sets
health to `max 0 (health - dmg)` (subtraction floored at 0), so any sequence
of damage calls starting from nonnegative health keeps health
nonnegative. -/
theorem applyDamageToPlayer_spec (p : Player) (dmg now : ℚ)
    (calls : List (ℚ × ℚ)) :
    (now - p.lastDamageTime < 200 → applyDamageToPlayer p dmg now = p)
    ∧ (200 ≤ now - p.lastDamageTime →
        (applyDamageToPlayer p dmg now).lastDamageTime = now
        ∧ (applyDamageToPlayer p dmg now).health = max 0 (p.health - dmg))
    ∧ (0 ≤ p.health → 0 ≤ (runDamage p calls).health) := by
  refine ⟨?_, ?_, ?_⟩
  · intro h
    simp [applyDamageToPlayer, h]
  · intro h
    have hn : ¬ (now - p.lastDamageTime < 200) := not_lt.mpr h
    constructor
    · simp only [applyDamageToPlayer, if_neg hn]
      split <;> rfl
    · simp only [applyDamageToPlayer, if_neg hn]
      split
      · rename_i hle
        simp at hle ⊢
        exact hle
      · rename_i hgt
        simp at hgt ⊢
        exact le_of_lt hgt
  · intro h0
    induction calls generalizing p with
    | nil => exact h0
    | cons c cs ih =>
        exact ih (applyDamageToPlayer p c.1 c.2)
          (applyDamageToPlayer_health_nonneg p c.1 c.2 h0)

/-- C3 witness: at health 100, a 14-damage hit at t=100 after an accepted
hit at t=0 is ignored; an accepted 130-damage hit at t=500 floors health at
0; and a concrete call sequence keeps health nonnegative. -/
theorem applyDamageToPlayer_spec_witness :
    (applyDamageToPlayer { samplePlayer with lastDamageTime := 0 } 14 100
      = { samplePlayer with lastDamageTime := 0 })
    ∧ ((applyDamageToPlayer samplePlayer 130 500).lastDamageTime = 500
        ∧ (applyDamageToPlayer samplePlayer 130 500).health
            = max 0 (samplePlayer.health - 130))
    ∧ 0 ≤ (runDamage samplePlayer [(14, 500), (95, 1000), (95, 2000)]).health := by
  refine ⟨?_, ?_, ?_⟩
  · exact (applyDamageToPlayer_spec { samplePlayer with lastDamageTime := 0 }
      14 100 []).1 (by norm_num)
  · exact (applyDamageToPlayer_spec samplePlayer 130 500 []).2.1
      (by norm_num [samplePlayer])
  · exact (applyDamageToPlayer_spec samplePlayer 0 0
      [(14, 500), (95, 1000), (95, 2000)]).2.2 (by norm_num [samplePlayer])

/-! ## C4: enemy death removes it from every pool atomically -/

/-- C4: when `applyDamageToEnemy` brings an enemy's health to 0 or below,
the same call removes it from the enemy list, the raycastable mesh pool and
the mesh-to-enemy map, so no hit-query on the updated registry can return
it; the spawn of a replacement is scheduled, and the replacement
`createEnemy` builds is a fresh identity (distinct from every enemy alive
before the kill, given that live identities are below `nextId`) at a fresh
random position with full health. -/
theorem applyDamageToEnemy_kill (mgr : EnemyManager) (eid : ℕ) (dmg : ℚ)
    (e : Enemy) (pick : ℕ) (r1 r2 : ℚ)
    (hfind : mgr.enemies.find? (fun x => x.id == eid) = some e)
    (hkill : e.health - dmg ≤ 0)
    (hfresh : ∀ x ∈ mgr.enemies, x.id < mgr.nextId) :
    (∀ x ∈ (applyDamageToEnemy mgr eid dmg).enemies, x.id ≠ eid)
    ∧ eid ∉ (applyDamageToEnemy mgr eid dmg).hitMeshes
    ∧ meshLookup (applyDamageToEnemy mgr eid dmg) eid = none
    ∧ hitQuery (applyDamageToEnemy mgr eid dmg) pick ≠ some eid
    ∧ (applyDamageToEnemy mgr eid dmg).pendingSpawns = mgr.pendingSpawns + 1
    ∧ (∃ enew ∈ (createEnemy (applyDamageToEnemy mgr eid dmg) r1 r2).enemies,
        enew.health = 100
        ∧ enew.posX = randFloat (-(WORLD_SIZE/2)) (WORLD_SIZE/2) r1
        ∧ enew.posZ = randFloat (-(WORLD_SIZE/2)) (WORLD_SIZE/2) r2
        ∧ ∀ x ∈ mgr.enemies, enew.id ≠ x.id) := by
  have hm : applyDamageToEnemy mgr eid dmg =
      { mgr with
        enemies := mgr.enemies.filter (fun x => x.id != eid)
        hitMeshes := mgr.hitMeshes.filter (fun m => m != eid)
        meshToEnemy := mgr.meshToEnemy.filter (fun pr => pr.1 != eid)
        pendingSpawns := mgr.pendingSpawns + 1 } := by
    simp [applyDamageToEnemy, hfind, hkill]
  refine ⟨?_, ?_, ?_, ?_, ?_, ?_⟩
  · intro x hx
    rw [hm] at hx
    simp [List.mem_filter] at hx
    exact hx.2
  · intro hx
    rw [hm] at hx
    simp [List.mem_filter] at hx
  · rw [hm]
    unfold meshLookup
    have hnone :
        (mgr.meshToEnemy.filter (fun pr => pr.1 != eid)).find?
          (fun pr => pr.1 == eid) = none := by
      rw [List.find?_eq_none]
      intro pr hpr
      simp [List.mem_filter] at hpr
      simp [hpr.2]
    simp only [hnone, Option.map_none']
  · intro hq
    have hmem : eid ∈ (applyDamageToEnemy mgr eid dmg).hitMeshes :=
      List.getElem?_mem hq
    rw [hm] at hmem
    simp [List.mem_filter] at hmem
  · rw [hm]
  · refine ⟨⟨mgr.nextId, randFloat (-(WORLD_SIZE/2)) (WORLD_SIZE/2) r1,
      randFloat (-(WORLD_SIZE/2)) (WORLD_SIZE/2) r2, 100, "patrol",
      0, 1, 0, 0⟩, ?_, rfl, rfl, rfl, ?_⟩
    · rw [hm]
      simp [createEnemy]
    · intro x hx
      exact fun hcon => absurd (hcon ▸ hfresh x hx) (lt_irrefl _)

/-- C4 witness: in the two-enemy registry, 25 damage to enemy 0 (health 20)
removes it from every pool the same call, no hit-query can return it, a
replacement is scheduled, and the replacement is enemy 2 at full health. -/
theorem applyDamageToEnemy_kill_witness :
    (∀ x ∈ (applyDamageToEnemy sampleMgr 0 25).enemies, x.id ≠ 0)
    ∧ 0 ∉ (applyDamageToEnemy sampleMgr 0 25).hitMeshes
    ∧ meshLookup (applyDamageToEnemy sampleMgr 0 25) 0 = none
    ∧ hitQuery (applyDamageToEnemy sampleMgr 0 25) 0 ≠ some 0
    ∧ (applyDamageToEnemy sampleMgr 0 25).pendingSpawns
        = sampleMgr.pendingSpawns + 1 := by
  have h := applyDamageToEnemy_kill sampleMgr 0 25 sampleEnemy 0 (1/2) (1/2)
    (by rfl) (by norm_num [sampleEnemy]) (by decide)
  exact ⟨h.1, h.2.1, h.2.2.1, h.2.2.2.1, h.2.2.2.2.1⟩

/-! ## C5: spread perturbation axes -/

/-- C5 counterexample: the claim puts the extra 0.2 scale on the vertical
axis.  In the code the vertical (y) offset gets the full spread: firing the
shotgun with random draws `r1 = r2 = 1`, `r3 = 1/2` from straight-ahead
`(0, 0, -1)` produces a vertical offset of `0.5 * spread = 7/400`, which no
centred uniform draw `v` (the `Math.random() - 0.5 ∈ [-1/2, 1/2)` form the
horizontal axis uses) can produce under the claimed `v * spread * 0.2`
vertical scaling. -/
theorem spread_vertical_scaling_counterexample :
    ¬ ∃ v : ℚ, |v| ≤ 1/2 ∧
      (spreadPerturb shotgunDef ⟨0, 0, -1⟩ (9/10) (9/10) (1/2)).y - (0 : ℚ)
        = v * shotgunDef.spread * (2/10) := by
  rintro ⟨v, hv, he⟩
  have hy : (spreadPerturb shotgunDef ⟨0, 0, -1⟩ (9/10) (9/10) (1/2)).y
      = 7/500 := by
    norm_num [spreadPerturb, shotgunDef]
  rw [hy] at he
  have hv' : v = 2 := by
    norm_num [shotgunDef] at he
    linarith
  rw [hv'] at hv
  have hv2 : (2 : ℚ) ≤ 1/2 := by
    rwa [abs_of_nonneg (by norm_num)] at hv
  linarith

/-- C5 amended: each pellet direction is the aim direction plus independent
uniform offsets of `(r - 1/2) * spread` on BOTH the x and the y axis (so the
vertical offset carries the full spread), while the additional 0.2 scale is
applied to the z (forward/depth) offset, `(r3 - 1/2) * spread * 0.2`; the
vector is then renormalised.  Offsets are bounded by `spread/2` on x and y
and by `spread/10` on z. -/
theorem spreadPerturb_offsets (d : WeaponDef) (dir : Vec3) (r1 r2 r3 : ℚ)
    (h1 : 0 ≤ r1 ∧ r1 < 1) (h2 : 0 ≤ r2 ∧ r2 < 1) (h3 : 0 ≤ r3 ∧ r3 < 1)
    (hs : 0 ≤ d.spread) :
    (spreadPerturb d dir r1 r2 r3).x - dir.x = (r1 - 1/2) * d.spread
    ∧ (spreadPerturb d dir r1 r2 r3).y - dir.y = (r2 - 1/2) * d.spread
    ∧ (spreadPerturb d dir r1 r2 r3).z - dir.z = (r3 - 1/2) * d.spread * (2/10)
    ∧ |(spreadPerturb d dir r1 r2 r3).x - dir.x| ≤ d.spread / 2
    ∧ |(spreadPerturb d dir r1 r2 r3).y - dir.y| ≤ d.spread / 2
    ∧ |(spreadPerturb d dir r1 r2 r3).z - dir.z| ≤ d.spread / 10 := by
  have hx : (spreadPerturb d dir r1 r2 r3).x - dir.x = (r1 - 1/2) * d.spread := by
    simp [spreadPerturb]
  have hy : (spreadPerturb d dir r1 r2 r3).y - dir.y = (r2 - 1/2) * d.spread := by
    simp [spreadPerturb]
  have hz : (spreadPerturb d dir r1 r2 r3).z - dir.z
      = (r3 - 1/2) * d.spread * (2/10) := by
    simp [spreadPerturb]
  refine ⟨hx, hy, hz, ?_, ?_, ?_⟩
  · rw [hx, abs_mul, abs_of_nonneg hs]
    have hb : |r1 - 1/2| ≤ 1/2 := abs_le.mpr ⟨by linarith [h1.1], by linarith [h1.2]⟩
    calc |r1 - 1/2| * d.spread ≤ (1/2) * d.spread :=
          mul_le_mul_of_nonneg_right hb hs
      _ = d.spread / 2 := by ring
  · rw [hy, abs_mul, abs_of_nonneg hs]
    have hb : |r2 - 1/2| ≤ 1/2 := abs_le.mpr ⟨by linarith [h2.1], by linarith [h2.2]⟩
    calc |r2 - 1/2| * d.spread ≤ (1/2) * d.spread :=
          mul_le_mul_of_nonneg_right hb hs
      _ = d.spread / 2 := by ring
  · rw [hz, abs_mul, abs_mul, abs_of_nonneg hs]
    have hb : |r3 - 1/2| ≤ 1/2 := abs_le.mpr ⟨by linarith [h3.1], by linarith [h3.2]⟩
    have habs : |(2 : ℚ)/10| = 2/10 := by norm_num
    rw [habs]
    calc |r3 - 1/2| * d.spread * (2/10)
        ≤ (1/2) * d.spread * (2/10) := by
          have := mul_le_mul_of_nonneg_right hb hs
          nlinarith
      _ = d.spread / 10 := by ring

/-- C5 witness: the amended offset characterisation at the shotgun with the
counterexample's draws. -/
theorem spreadPerturb_offsets_witness :
    (spreadPerturb shotgunDef ⟨0, 0, -1⟩ (9/10) (9/10) (1/2)).y - (0 : ℚ)
      = (9/10 - 1/2) * shotgunDef.spread
    ∧ |(spreadPerturb shotgunDef ⟨0, 0, -1⟩ (9/10) (9/10) (1/2)).z - (-1 : ℚ)|
        ≤ shotgunDef.spread / 10 := by
  have h := spreadPerturb_offsets shotgunDef ⟨0, 0, -1⟩ (9/10) (9/10) (1/2)
    (by norm_num) (by norm_num) (by norm_num) (by norm_num [shotgunDef])
  exact ⟨h.2.1, h.2.2.2.2.2⟩

/-! ## C6: one ammo unit, pelletCount pellet resolutions -/

/-- C6: a successful shot of the shotgun-class weapon spends exactly one
round of magazine ammo no matter the pellet count, and resolves exactly
`pellets || 8` pellets; every pellet resolution queries the enemy pool, and
queries the world-collider pool exactly when the enemy query missed. -/
theorem shotgun_fire_spec (d : WeaponDef) (st : WeaponState) (now : ℚ)
    (oracle : ℕ → Option ℕ) (hk : d.key = "shotgun")
    (hr : st.reloading = false) (ha : 0 < st.ammo)
    (hg : 60000 / d.rpm ≤ now - st.lastShotTime) :
    ((shoot d st now oracle).1).ammo = st.ammo - 1
    ∧ ((shoot d st now oracle).2).length = pelletsOrDefault d
    ∧ ∀ pr ∈ (shoot d st now oracle).2,
        pr.enemyQueried = true
        ∧ (pr.worldQueried = true ↔ pr.hitEnemy = none) := by
  have hna : ¬ st.ammo ≤ 0 := by omega
  have hok : (canShootCheck d st now).1 = true := by
    simp [canShootCheck, hr, hna, ge_iff_le, hg]
  have hst1 : (canShootCheck d st now).2 = st := by
    simp [canShootCheck, hr, hna]
  have hsh : shoot d st now oracle =
      ({ st with lastShotTime := now, ammo := st.ammo - 1 },
        (List.range (pelletsOrDefault d)).map
          (fun i => resolvePellet (oracle i))) := by
    simp [shoot, hok, hst1, hk]
  rw [hsh]
  refine ⟨rfl, by simp, ?_⟩
  intro pr hpr
  simp only [List.mem_map, List.mem_range] at hpr
  obtain ⟨i, _, hpr⟩ := hpr
  cases horacle : oracle i <;>
    simp [← hpr, resolvePellet, horacle]

/-- C6 witness: the shotgun (8 pellets) fired at t=1000 with an all-miss
oracle loses one round and resolves 8 pellets. -/
theorem shotgun_fire_spec_witness :
    ((shoot shotgunDef sampleState 1000 noEnemyOracle).1).ammo
      = sampleState.ammo - 1
    ∧ ((shoot shotgunDef sampleState 1000 noEnemyOracle).2).length
        = pelletsOrDefault shotgunDef := by
  have h := shotgun_fire_spec shotgunDef sampleState 1000 noEnemyOracle rfl rfl
    (by norm_num [sampleState]) (by norm_num [shotgunDef, sampleState])
  exact ⟨h.1, h.2.1⟩

/-! ## C7: enemy-initiated shot probability and damage range -/

/-- C7: an enemy shot hits exactly when the uniform roll is below
`clamp(0.6 - dist/2000, 0.05, 0.35)`; that chance is bounded by the 0.05
floor and 0.35 cap at every distance and equals the floor at distance 1800;
and any damage dealt is an integer in [6, 14] (concretely `⌊8·r + 6⌋`, so
its attainable values are 6..13). -/
theorem attemptEnemyShot_spec (dist roll rdmg : ℚ)
    (hr0 : 0 ≤ rdmg) (hr1 : rdmg < 1) :
    ((attemptEnemyShot dist roll rdmg).isSome = true ↔ roll < hitChance dist)
    ∧ 1/20 ≤ hitChance dist
    ∧ hitChance dist ≤ 7/20
    ∧ hitChance 1800 = 1/20
    ∧ ∀ dmg : ℤ, attemptEnemyShot dist roll rdmg = some dmg →
        6 ≤ dmg ∧ dmg ≤ 14 := by
  refine ⟨?_, ?_, ?_, ?_, ?_⟩
  · unfold attemptEnemyShot
    split_ifs with h <;> simp [h]
  · exact le_max_left _ _
  · exact max_le (by norm_num) (min_le_left _ _)
  · norm_num [hitChance, clamp]
  · intro dmg hdmg
    unfold attemptEnemyShot at hdmg
    split_ifs at hdmg with h
    · have hdv : dmg = randInt 6 14 rdmg := by
        injection hdmg with h2
        exact h2.symm
      subst hdv
      unfold randInt randFloat
      constructor
      · rw [Int.le_floor]
        push_cast
        nlinarith
      · have : rdmg * (14 - 6) + 6 < 14 := by nlinarith
        have hlt : ⌊rdmg * ((14 : ℚ) - 6) + 6⌋ < 14 := by
          rw [Int.floor_lt]
          push_cast
          linarith
        omega

/-- C7 witness: at distance 1800 the chance is the 0.05 floor; a roll of
0.01 hits, and the draw 0.999 yields 13 damage, inside [6, 14]. -/
theorem attemptEnemyShot_spec_witness :
    ((attemptEnemyShot 1800 (1/100) (999/1000)).isSome = true ↔
      (1/100 : ℚ) < hitChance 1800)
    ∧ hitChance 1800 = 1/20
    ∧ ∀ dmg : ℤ, attemptEnemyShot 1800 (1/100) (999/1000) = some dmg →
        6 ≤ dmg ∧ dmg ≤ 14 := by
  have h := attemptEnemyShot_spec 1800 (1/100) (999/1000)
    (by norm_num) (by norm_num)
  exact ⟨h.1, h.2.2.2.1, h.2.2.2.2⟩

/-! ## C8: airborne vertical velocity -/

/-- C8: the claim (and the spec, and the source comment "accelerate towards
keyDir on XZ plane") say that while airborne the vertical velocity changes
only by `-gravity * delta` before integration.  The code applies the
acceleration step to all three velocity components, so it first moves
`velocity.y` toward 0 by the factor `clamp(600 * delta, 0, 1)` — wiping it
entirely for any `delta ≥ 1/600 s` — and only then subtracts
`gravity * delta`.  At the failing input (airborne, `velY = 260`,
`delta = 10 ms`, no keys held) the tick produces `velY = -0.64` instead of
the claimed `260 - 0.64 = 259.36`; this also nullifies
`PLAYER_JUMP_VELOCITY` one frame after a jump.  The jump clause of the
claim does hold: jumping while grounded sets `velY = 260` and clears the
grounded flag. -/
theorem updateMovement_airborne_velocity :
    (updateMovement airbornePlayer idleInput 1 0 1 (1/100)).velY = -16/25
    ∧ airbornePlayer.velY - GRAVITY * (1/100) = 6484/25
    ∧ (updateMovement airbornePlayer idleInput 1 0 1 (1/100)).velY
        ≠ airbornePlayer.velY - GRAVITY * (1/100)
    ∧ (updateMovement samplePlayer jumpInput 1 0 1 (1/100)).velY
        = PLAYER_JUMP_VELOCITY
    ∧ (updateMovement samplePlayer jumpInput 1 0 1 (1/100)).onGround = false := by
  refine ⟨?_, ?_, ?_, ?_, ?_⟩
  · norm_num [updateMovement, airbornePlayer, idleInput, clamp,
      GRAVITY, PLAYER_SPEED, PLAYER_SPRINT_MULTIPLIER, PLAYER_JUMP_VELOCITY]
  · norm_num [airbornePlayer, GRAVITY]
  · norm_num [updateMovement, airbornePlayer, idleInput, clamp,
      GRAVITY, PLAYER_SPEED, PLAYER_SPRINT_MULTIPLIER, PLAYER_JUMP_VELOCITY]
  · norm_num [updateMovement, samplePlayer, jumpInput, idleInput, clamp,
      GRAVITY, PLAYER_SPEED, PLAYER_SPRINT_MULTIPLIER, PLAYER_JUMP_VELOCITY]
  · norm_num [updateMovement, samplePlayer, jumpInput, idleInput, clamp,
      GRAVITY, PLAYER_SPEED, PLAYER_SPRINT_MULTIPLIER, PLAYER_JUMP_VELOCITY]

/-! ## C9: what respawn restores and what it leaves behind -/

/-- C9 counterexample: `respawnPlayer` does not clear the damage-cooldown
state.  In the concrete game state whose player died at `lastDamageTime =
5000`, the timestamp is still 5000 (not reset) after the respawn runs. -/
theorem respawn_cooldown_counterexample :
    (respawnPlayer sampleGame).player.lastDamageTime = 5000
    ∧ ¬ (respawnPlayer sampleGame).player.lastDamageTime = 0 := by
  refine ⟨rfl, ?_⟩
  norm_num [respawnPlayer, sampleGame, samplePlayer]

/-- C9 amended: the respawn that runs after the fixed delay restores health
to the configured maximum and resets position to (0, 24, 0) and velocity to
zero (and clears the status message), but it leaves the damage-cooldown
timestamp `lastDamageTime` unchanged — the stale value merely cannot matter
in practice, because the 2000 ms respawn delay already exceeds the 200 ms
invulnerability window. -/
theorem respawnPlayer_spec (gs : GameState) :
    (respawnPlayer gs).player.health = PLAYER_MAX_HEALTH
    ∧ (respawnPlayer gs).player.posX = 0
    ∧ (respawnPlayer gs).player.posY = 24
    ∧ (respawnPlayer gs).player.posZ = 0
    ∧ (respawnPlayer gs).player.velX = 0
    ∧ (respawnPlayer gs).player.velY = 0
    ∧ (respawnPlayer gs).player.velZ = 0
    ∧ (respawnPlayer gs).statusText = ""
    ∧ (respawnPlayer gs).player.lastDamageTime = gs.player.lastDamageTime :=
  ⟨rfl, rfl, rfl, rfl, rfl, rfl, rfl, rfl, rfl⟩

/-! ## C10: respawn frame condition -/

/-- C10: respawn touches only the player's position, velocity and health and
the status message: every weapon runtime state (ammo, reserve, reloading
flag, last-fire timestamp, skin), the equipped-weapon index, the whole
enemy registry, and the player's grounded flag and damage timestamp are
unchanged — magazines are not refilled and in-progress reloads are not
cancelled by dying. -/
theorem respawnPlayer_frame (gs : GameState) :
    (respawnPlayer gs).weapons = gs.weapons
    ∧ (respawnPlayer gs).currentWeaponIndex = gs.currentWeaponIndex
    ∧ (respawnPlayer gs).enemyMgr = gs.enemyMgr
    ∧ (respawnPlayer gs).player.onGround = gs.player.onGround
    ∧ (respawnPlayer gs).player.lastDamageTime = gs.player.lastDamageTime :=
  ⟨rfl, rfl, rfl, rfl, rfl⟩

end FpsGame
